import Mathlib

/-!
Shallow embedding of `homework2/main.py` (a contact-book CLI): validated
value objects (`Phone`, `Birthday`), `Record` with phone/birthday mutators,
and the `AddressBook` upcoming-birthday query, together with the
`add_contact` command handler and its `input_error` decorator semantics.

Python strings are modelled as Lean `String` (a list of characters);
Python `datetime` values are modelled by their calendar fields plus a
time-of-day component (`secs`), since only the ordinal day number and the
time enter comparisons.  Mutating methods that may raise are modelled as
`Except (String × Record) Record`: the error case carries the message of
the raised `ValueError` together with the state of the object at the
moment the exception is raised (Python does not roll back mutations made
before a raise).
-/

namespace HW2

/-! ### Characters and digit strings -/

/-- An ASCII decimal digit `'0'..'9'`: the "decimal digit" of the claim
language, and the digit class of the `strptime` field patterns as exercised
on the ASCII strings appearing in this development's statements. -/
def isDecimalDigit (c : Char) : Bool := 48 ≤ c.toNat && c.toNat ≤ 57

/-- CPython `str.isdigit` on a single character.  It is true not only for
the decimal digits but for every character with Unicode property
`Numeric_Type = Digit` or `Decimal`.  This table models it exactly on a
decidable fragment: the ASCII range (where precisely `'0'..'9'` qualify)
together with the Latin-1 superscripts `¹²³` (178, 179, 185), the
superscript digits `⁰`, `⁴`..`⁹` (8304, 8308..8313), the subscript digits
`₀`..`₉` (8320..8329) and the fullwidth digits `０`..`９` (65296..65305),
all of which are `isdigit`-true in Python.  Characters outside this
fragment (e.g. other scripts' digits) are classified false here;
statements about arbitrary strings therefore carry a `pyDigitModelled`
hypothesis restricting them to the fragment. -/
def pyIsdigitChar (c : Char) : Bool :=
  (48 ≤ c.toNat && c.toNat ≤ 57) ||
  c.toNat == 178 || c.toNat == 179 || c.toNat == 185 ||
  c.toNat == 8304 || (8308 ≤ c.toNat && c.toNat ≤ 8313) ||
  (8320 ≤ c.toNat && c.toNat ≤ 8329) ||
  (65296 ≤ c.toNat && c.toNat ≤ 65305)

/-- The characters on which `pyIsdigitChar` is asserted to agree with
CPython's `str.isdigit`: all of ASCII, plus the listed non-ASCII digit
characters. -/
def pyDigitModelled (c : Char) : Bool := c.toNat < 128 || pyIsdigitChar c

/-- Numeric value of an ASCII digit character. -/
def toDigit (c : Char) : Nat := c.toNat - 48

/-- The ASCII digit character for `n < 10` (clamped at `'9'` above). -/
def digitChar (n : Nat) : Char :=
  match n with
  | 0 => '0' | 1 => '1' | 2 => '2' | 3 => '3' | 4 => '4'
  | 5 => '5' | 6 => '6' | 7 => '7' | 8 => '8' | _ => '9'

/-- Python `len(s)`: the number of characters of the string. -/
def pyLen (s : String) : Nat := s.data.length

/-- Python `s.isdigit()`: nonempty and every character `isdigit`-true. -/
def strIsdigit (s : String) : Bool := !s.data.isEmpty && s.data.all pyIsdigitChar

/-! ### `Phone.__init__` (main.py lines 31-35)

```python
class Phone(Field):
    def __init__(self, value):
        if not value.isdigit() or len(value) != 10:
            raise ValueError("Phone number must contain exactly 10 digits.")
        super().__init__(value)
```
A `Phone` object is determined by its digit string, so a constructed phone
is modelled by the string itself. -/

def phoneInit (value : String) : Except String String :=
  if !strIsdigit value || pyLen value != 10 then
    .error "Phone number must contain exactly 10 digits."
  else
    .ok value

/-! ### Calendar arithmetic (proleptic Gregorian, as Python `datetime`) -/

def isLeap (y : Nat) : Bool := (y % 4 == 0 && y % 100 != 0) || y % 400 == 0

def daysInMonth (y m : Nat) : Nat :=
  if m = 2 then (if isLeap y then 29 else 28)
  else if m = 4 ∨ m = 6 ∨ m = 9 ∨ m = 11 then 30
  else 31

/-- Validity of the `(year, month, day)` triple exactly as Python `datetime`
checks it at construction and in `replace` (`datetime.MINYEAR = 1`,
`datetime.MAXYEAR = 9999`). -/
def validDate (y m d : Nat) : Bool :=
  1 ≤ y && y ≤ 9999 && 1 ≤ m && m ≤ 12 && 1 ≤ d && d ≤ daysInMonth y m

/-- Days in all years strictly before `y` (so `daysBeforeYear 1 = 0`). -/
def daysBeforeYear (y : Nat) : Nat :=
  365 * (y - 1) + (y - 1) / 4 - (y - 1) / 100 + (y - 1) / 400

/-- Days in the months of year `y` strictly before month `m`. -/
def daysBeforeMonth (y m : Nat) : Nat :=
  (((List.range (m - 1)).map (fun i => daysInMonth y (i + 1))).foldl (· + ·) 0)

/-- Python `datetime.toordinal()`: day number with `0001-01-01 = 1`. -/
def toOrdinal (y m d : Nat) : Nat := daysBeforeYear y + daysBeforeMonth y m + d

/-- Python `datetime.weekday()`: Monday = 0 … Sunday = 6; day ordinal 1
(0001-01-01) is a Monday. -/
def weekday (o : Nat) : Nat := (o - 1) % 7

/-! ### `Birthday` (main.py lines 37-45)

```python
class Birthday(Field):
    def __init__(self, value):
        try:
            self.value = datetime.strptime(value, "%d.%m.%Y")
        except ValueError:
            raise ValueError("Invalid date format. Use DD.MM.YYYY")
    def __str__(self):
        return self.value.strftime("%d.%m.%Y")
```
`strptime` with format `"%d.%m.%Y"` matches one-or-two digits for `%d` and
`%m` (greedy), a literal dot, up to four digits for `%Y`, requires the whole
string to be consumed, and then validates the calendar values.  The parsed
value is a midnight-anchored `datetime`; only `(year, month, day)` matter,
collected in `Ymd`.  `strftime` renders day and month zero-padded to two
digits and the year to four digits. -/

structure Ymd where
  year : Nat
  month : Nat
  day : Nat
deriving DecidableEq, Repr

/-- Read greedily at most `k` decimal digits from the front of `cs`,
accumulating their value onto `acc`.  (The digit class of the `strptime`
field regexes is modelled on ASCII; the round-trip statements only apply
the pattern to ASCII renders.) -/
def readDigits : Nat → List Char → Nat → Nat × List Char
  | _, [], acc => (acc, [])
  | k, c :: cs, acc =>
    if k = 0 then (acc, c :: cs)
    else if isDecimalDigit c then readDigits (k - 1) cs (acc * 10 + toDigit c)
    else (acc, c :: cs)

/-- A numeric field of at most `k` digits; fails unless at least one digit
is present. -/
def readNum (k : Nat) (cs : List Char) : Option (Nat × List Char) :=
  match cs with
  | c :: _ => if isDecimalDigit c then some (readDigits k cs 0) else none
  | [] => none

/-- The `"%d.%m.%Y"` pattern of `strptime`, yielding `(day, month, year)`. -/
def parseDMY (cs : List Char) : Option (Nat × Nat × Nat) :=
  match readNum 2 cs with
  | none => none
  | some (d, cs1) =>
    match cs1 with
    | '.' :: cs2 =>
      match readNum 2 cs2 with
      | none => none
      | some (m, cs3) =>
        match cs3 with
        | '.' :: cs4 =>
          match readNum 4 cs4 with
          | none => none
          | some (y, cs5) => if cs5 = [] then some (d, m, y) else none
        | _ => none
    | _ => none

/-- `Birthday.__init__`: any `ValueError` from `strptime` (bad shape or
invalid calendar values) is re-raised with the fixed message. -/
def birthdayInit (value : String) : Except String Ymd :=
  match parseDMY value.data with
  | none => .error "Invalid date format. Use DD.MM.YYYY"
  | some (d, m, y) =>
    if validDate y m d then .ok ⟨y, m, d⟩
    else .error "Invalid date format. Use DD.MM.YYYY"

/-- Two-digit zero-padded rendering: `strftime`'s `%d` and `%m` (glibc
zero-pads both), and the two-digit fields of the `DD.MM.YYYY` shape. -/
def pad2 (n : Nat) : List Char := [digitChar (n / 10), digitChar (n % 10)]

/-- The four-digit `YYYY` field of the `DD.MM.YYYY` *input* shape from the
claim's words (zero-padded component rendering).  This does **not** model
`strftime`'s `%Y`, which glibc renders unpadded — see `natToDigits`. -/
def pad4 (n : Nat) : List Char :=
  [digitChar (n / 1000), digitChar (n / 100 % 10), digitChar (n / 10 % 10),
   digitChar (n % 10)]

/-- Unpadded decimal rendering, as glibc's `strftime` `%Y` produces it
(year 99 renders as `"99"`, not `"0099"`). -/
def natToDigits (n : Nat) : List Char :=
  if n < 10 then [digitChar n]
  else natToDigits (n / 10) ++ [digitChar (n % 10)]
termination_by n
decreasing_by exact Nat.div_lt_self (by omega) (by omega)

/-- `Birthday.__str__`: `strftime("%d.%m.%Y")` with glibc semantics
(`%d`, `%m` zero-padded to two digits; `%Y` unpadded). -/
def birthdayStr (b : Ymd) : String :=
  ⟨pad2 b.day ++ '.' :: pad2 b.month ++ '.' :: natToDigits b.year⟩

/-- The canonical string matching `DD.MM.YYYY` with component values
`(d, m, y)` — the *input* pattern named by the claim, every match of which
has this form.  Kept distinct from `birthdayStr`, whose `%Y` is unpadded. -/
def specDDMMYYYY (d m y : Nat) : String :=
  ⟨pad2 d ++ '.' :: pad2 m ++ '.' :: pad4 y⟩

/-! ### `Record` (main.py lines 47-86)

A record owns a name, a list of `Phone` objects (modelled by their digit
strings, in insertion order) and an optional `Birthday` (always
midnight-anchored, so modelled by its `Ymd`). -/

structure Record where
  name : String
  phones : List String
  birthday : Option Ymd
deriving DecidableEq, Repr

/-- The membership test `phone not in self.phones` of `Record.add_phone`.
`Phone` overrides neither `__eq__` nor `__hash__`, so the Python `in`
operator falls back to object identity; `phone` is freshly constructed on
the preceding line and therefore identical to no stored object, so the
test is true for every list of stored phones. -/
def freshPhoneNotMem (_phones : List String) : Bool := true

namespace Record

/-- ```python
def add_phone(self, phone_number):
    phone = Phone(phone_number)
    if phone not in self.phones:
        self.phones.append(phone)
    else:
        raise ValueError(f"Phone number {phone_number} already exists.")
``` -/
def add_phone (r : Record) (phone_number : String) : Except (String × Record) Record :=
  match phoneInit phone_number with
  | .error e => .error (e, r)
  | .ok phone =>
    if freshPhoneNotMem r.phones then
      .ok { r with phones := r.phones ++ [phone] }
    else
      .error ("Phone number " ++ phone_number ++ " already exists.", r)

/-- Remove the first element equal to `v`, if any (`list.remove` on the
first value-match found by the loop in `Record.remove_phone`). -/
def removeFirst : List String → String → List String
  | [], _ => []
  | x :: xs, v => if x = v then xs else x :: removeFirst xs v

/-- ```python
def remove_phone(self, phone):
    phone = Phone(phone)
    for user_phone in self.phones:
        if user_phone.value == phone.value:
            self.phones.remove(user_phone)
            break
``` -/
def remove_phone (r : Record) (phone : String) : Except (String × Record) Record :=
  match phoneInit phone with
  | .error e => .error (e, r)
  | .ok p => .ok { r with phones := removeFirst r.phones p }

/-- ```python
def find_phone(self, phone_number):
    for phone in self.phones:
        if str(phone) == phone_number:
            return phone
    return None
``` -/
def find_phone (r : Record) (phone_number : String) : Option String :=
  r.phones.find? (fun p => p == phone_number)

/-- ```python
def edit_phone(self, old_phone, new_phone):
    phone = self.find_phone(old_phone)
    if phone:
        self.remove_phone(old_phone)
        self.add_phone(new_phone)
    else:
        raise ValueError("Phone number not found")
``` -/
def edit_phone (r : Record) (old_phone new_phone : String) : Except (String × Record) Record :=
  match find_phone r old_phone with
  | some _ =>
    match remove_phone r old_phone with
    | .error er => .error er
    | .ok r1 => add_phone r1 new_phone
  | none => .error ("Phone number not found", r)

/-- ```python
def add_birthday(self, birthday):
    self.birthday = Birthday(birthday)
```
The right-hand side is evaluated (and may raise) before the assignment. -/
def add_birthday (r : Record) (birthday : String) : Except (String × Record) Record :=
  match birthdayInit birthday with
  | .error e => .error (e, r)
  | .ok b => .ok { r with birthday := some b }

end Record

/-! ### `AddressBook` upcoming-birthday query (main.py lines 102-124)

A Python `datetime` is ordered lexicographically by its day ordinal
(`toordinal()`) and its time of day; adding `timedelta(days=k)` adds `k` to
the ordinal and keeps the time.  `today = datetime.today()` carries the wall
clock's time of day, while every `Birthday` value and every `replace(year=…)`
of one is midnight-anchored.  `DateTime` models `today`; dates produced by
day arithmetic are represented by their `(ordinal, time)` comparison key. -/

structure DateTime where
  year : Nat
  month : Nat
  day : Nat
  /-- Time of day since midnight (any fixed granularity; `0` = midnight). -/
  secs : Nat
deriving DecidableEq, Repr

def ymdOrd (b : Ymd) : Nat := toOrdinal b.year b.month b.day

def dtOrd (t : DateTime) : Nat := toOrdinal t.year t.month t.day

/-- Strict `datetime` comparison on `(ordinal, time-of-day)` keys. -/
def keyLt (a b : Nat × Nat) : Bool := a.1 < b.1 || (a.1 == b.1 && a.2 < b.2)

/-- Non-strict `datetime` comparison on `(ordinal, time-of-day)` keys. -/
def keyLe (a b : Nat × Nat) : Bool := a.1 < b.1 || (a.1 == b.1 && a.2 ≤ b.2)

/-- `datetime.replace(year=y)`: revalidates the day against the new year
(raising `ValueError` e.g. for Feb 29 in a non-leap year), keeps month, day
and time. -/
def replaceYear (b : Ymd) (y : Nat) : Except String Ymd :=
  if validDate y b.month b.day then .ok ⟨y, b.month, b.day⟩
  else .error "day is out of range for month"

/-- ```python
def adjust_for_weekend(self, date_obj):
    if date_obj.weekday() == 5:  # Saturday
        return date_obj + timedelta(days=2)
    elif date_obj.weekday() == 6:  # Sunday
        return date_obj + timedelta(days=1)
    return date_obj
```
Stated on day ordinals: `weekday()` factors through the ordinal and adding
a `timedelta` of whole days adds to the ordinal (time unchanged; all call
sites are midnight-anchored). -/
def adjust_for_weekend (o : Nat) : Nat :=
  if weekday o = 5 then o + 2
  else if weekday o = 6 then o + 1
  else o

/-- ```python
def get_upcoming_birthdays(self, days=7):
    upcoming_birthdays = []
    today = datetime.today()
    next_week = today + timedelta(days=days)
    for record in self.data.values():
        if record.birthday:
            birthday_this_year = record.birthday.value.replace(year=today.year)
            if birthday_this_year < today:
                birthday_this_year = birthday_this_year.replace(year=today.year + 1)
            birthday_this_year = self.adjust_for_weekend(birthday_this_year)
            if today <= birthday_this_year <= next_week:
                upcoming_birthdays.append((record, birthday_this_year))
    return upcoming_birthdays
```
`today` (the clock reading, with its time of day) is passed explicitly;
the records are the book's values in insertion order.  A `ValueError`
raised by `replace` aborts the whole call, so the result is `Except`;
adjusted dates in the output are represented by their day ordinal (their
time of day is always 0). -/
def get_upcoming_birthdays (today : DateTime) (days : Nat) :
    List Record → Except String (List (Record × Nat))
  | [] => .ok []
  | r :: rs =>
    match r.birthday with
    | none => get_upcoming_birthdays today days rs
    | some b =>
      match replaceYear b today.year with
      | .error e => .error e
      | .ok bty0 =>
        match (if keyLt (ymdOrd bty0, 0) (dtOrd today, today.secs) then
                 replaceYear bty0 (today.year + 1)
               else .ok bty0) with
        | .error e => .error e
        | .ok bty1 =>
          let adj := adjust_for_weekend (ymdOrd bty1)
          match get_upcoming_birthdays today days rs with
          | .error e => .error e
          | .ok rest =>
            if keyLe (dtOrd today, today.secs) (adj, 0) &&
               keyLe (adj, 0) (dtOrd today + days, today.secs) then
              .ok ((r, adj) :: rest)
            else
              .ok rest

/-! ### `add_contact` and the `input_error` decorator (main.py lines 8-18, 166-178)

The book's `data` dict is an association list in insertion order;
`self.data[name] = record` overwrites in place or appends.  A handler run
is summarised by the resulting book, the list of messages shown through
the view, and the string the `input_error` wrapper returns when the body
raises (`None` on success).  `main()` invokes the handlers as bare
statements, so only `printed` ever reaches the user. -/

def bookFind (book : List (String × Record)) (name : String) : Option Record :=
  (book.find? (fun kv => kv.1 == name)).map (fun kv => kv.2)

def bookSet (book : List (String × Record)) (name : String) (r : Record) :
    List (String × Record) :=
  if book.any (fun kv => kv.1 == name) then
    book.map (fun kv => if kv.1 == name then (kv.1, r) else kv)
  else
    book ++ [(name, r)]

structure HandlerOut where
  book : List (String × Record)
  printed : List String
  /-- The value returned by the decorated handler: `none` models Python's
  `None` (normal completion); `some msg` is the message string the
  `input_error` wrapper builds from a caught exception. -/
  ret : Option String
deriving DecidableEq, Repr

/-- ```python
@input_error
def add_contact(args, book, view):
    name, phone, *_ = args
    record = book.find(name)
    message = "Contact updated."
    if record is None:
        record = Record(name)
        book.add_record(record)
        message = "Contact added."
    if phone:
        record.add_phone(phone)
    view.show_message(message)
```
Unpacking fewer than two `args` raises
`ValueError: not enough values to unpack (expected at least 2, got n)`,
which `input_error` catches and converts to a returned string; the record
is aliased by the book, so a mutation (even one made before a raise) is
written back into the book. -/
def add_contact (args : List String) (book : List (String × Record)) : HandlerOut :=
  match args with
  | name :: phone :: _ =>
    match bookFind book name with
    | some record =>
      if phone ≠ "" then
        match record.add_phone phone with
        | .ok r2 => ⟨bookSet book name r2, ["Contact updated."], none⟩
        | .error (e, r2) => ⟨bookSet book name r2, [], some ("ValueError: " ++ e)⟩
      else ⟨book, ["Contact updated."], none⟩
    | none =>
      let record : Record := ⟨name, [], none⟩
      let book1 := bookSet book name record
      if phone ≠ "" then
        match record.add_phone phone with
        | .ok r2 => ⟨bookSet book1 name r2, ["Contact added."], none⟩
        | .error (e, r2) => ⟨bookSet book1 name r2, [], some ("ValueError: " ++ e)⟩
      else ⟨book1, ["Contact added."], none⟩
  | _ =>
    ⟨book, [],
     some ("ValueError: not enough values to unpack (expected at least 2, got "
           ++ toString args.length ++ ")")⟩

/-! ### Helper lemmas -/

theorem isDecimal_digitChar : ∀ n < 10, isDecimalDigit (digitChar n) = true := by decide

theorem toDigit_digitChar : ∀ n < 10, toDigit (digitChar n) = n := by decide

theorem dot_not_digit : isDecimalDigit '.' = false := by decide

/-- On the ASCII range the `str.isdigit` table coincides with the decimal
digits. -/
theorem ascii_pyIsdigit (c : Char) (h : c.toNat < 128) :
    pyIsdigitChar c = isDecimalDigit c := by
  have hiff : pyIsdigitChar c = true ↔ isDecimalDigit c = true := by
    unfold pyIsdigitChar isDecimalDigit
    simp
    omega
  cases h1 : pyIsdigitChar c <;> cases h2 : isDecimalDigit c <;> simp_all

theorem natToDigits_small (n : Nat) (h : n < 10) : natToDigits n = [digitChar n] := by
  unfold natToDigits
  simp [h]

theorem natToDigits_step (n : Nat) (h : ¬n < 10) :
    natToDigits n = natToDigits (n / 10) ++ [digitChar (n % 10)] := by
  conv_lhs => unfold natToDigits
  simp [h]

/-- A four-digit year renders unpadded to exactly its four digits, i.e. to
the `YYYY` field of the input shape. -/
theorem natToDigits_four (y : Nat) (h1 : 1000 ≤ y) (h2 : y ≤ 9999) :
    natToDigits y = pad4 y := by
  have e1 : y / 10 / 10 = y / 100 := by omega
  have e2 : y / 100 / 10 = y / 1000 := by omega
  rw [natToDigits_step y (by omega), natToDigits_step (y / 10) (by omega), e1,
      natToDigits_step (y / 100) (by omega), e2,
      natToDigits_small (y / 1000) (by omega)]
  simp [pad4]

theorem daysInMonth_le (y m : Nat) : daysInMonth y m ≤ 31 := by
  unfold daysInMonth
  split
  · split <;> omega
  · split <;> omega

theorem phoneInit_ok_eq {s t : String} (h : phoneInit s = .ok t) : t = s := by
  unfold phoneInit at h
  split at h
  · cases h
  · cases h; rfl

theorem count_one_not_mem_removeFirst (v : String) :
    ∀ l : List String, l.count v = 1 → v ∉ Record.removeFirst l v := by
  intro l
  induction l with
  | nil => intro _; simp [Record.removeFirst]
  | cons x xs ih =>
    intro h
    by_cases hx : x = v
    · subst hx
      have hxs : xs.count x = 0 := by
        have := List.count_cons_self x xs
        omega
      simp [Record.removeFirst]
      exact List.count_eq_zero.mp hxs
    · have hcnt : xs.count v = 1 := by
        rw [List.count_cons] at h
        simp [hx] at h
        omega
      simp only [Record.removeFirst, if_neg hx]
      intro hmem
      rcases List.mem_cons.mp hmem with h1 | h2
      · exact hx h1.symm
      · exact ih hcnt h2

/-! ### Claims -/

/-- **C1** (code_bug evidence).  The claim says a second `add_phone` with the
same digit string fails with a `ValidationError` and leaves exactly one
phone.  In the code the membership test compares a freshly constructed
`Phone` object by identity, so the duplicate branch never fires: the second
call succeeds and the record ends up with two entries of the same digit
string. -/
theorem add_phone_duplicate_appends :
    Record.add_phone ⟨"Alice", [], none⟩ "0123456789"
        = .ok ⟨"Alice", ["0123456789"], none⟩ ∧
    Record.add_phone ⟨"Alice", ["0123456789"], none⟩ "0123456789"
        = .ok ⟨"Alice", ["0123456789", "0123456789"], none⟩ :=
  ⟨rfl, rfl⟩

/-- **C2** (code_bug evidence).  The claim says an adjusted date landing
exactly on `today` is included (inclusive lower bound) and that the
year-roll happens only when the projected date is strictly before `today`.
The code compares midnight-anchored projected dates against the full clock
reading `datetime.today()`: with `today` = 2026-10-12 (a Monday) at any
positive time of day, a birthday of 12.10 is judged "before today", rolled
to 2027, and excluded, while the same query at exact midnight includes it
(739901 = ordinal of 2026-10-12). -/
theorem upcoming_birthdays_today_edge :
    get_upcoming_birthdays ⟨2026, 10, 12, 3600⟩ 7
        [⟨"Alice", ["0123456789"], some ⟨1990, 10, 12⟩⟩] = .ok [] ∧
    get_upcoming_birthdays ⟨2026, 10, 12, 0⟩ 7
        [⟨"Alice", ["0123456789"], some ⟨1990, 10, 12⟩⟩]
        = .ok [(⟨"Alice", ["0123456789"], some ⟨1990, 10, 12⟩⟩, 739901)] :=
  ⟨rfl, rfl⟩

/-- **C3** (confirmed).  `adjust_for_weekend` moves a Saturday (weekday 5)
two days and a Sunday (weekday 6) one day forward, leaves every other
weekday unchanged, and its result is never a Saturday or Sunday
(equivalently, its weekday is `< 5`). -/
theorem adjust_for_weekend_spec (o : Nat) :
    (weekday o = 5 → adjust_for_weekend o = o + 2) ∧
    (weekday o = 6 → adjust_for_weekend o = o + 1) ∧
    (weekday o ≠ 5 → weekday o ≠ 6 → adjust_for_weekend o = o) ∧
    weekday (adjust_for_weekend o) < 5 := by
  unfold adjust_for_weekend weekday
  refine ⟨fun h => by rw [if_pos h], fun h => ?_, fun h5 h6 => by rw [if_neg h5, if_neg h6], ?_⟩
  · rw [if_neg (by omega), if_pos h]
  · split
    · rename_i h; omega
    · split
      · rename_i h; omega
      · rename_i h5 h6; omega

/-- Witness for C3 at concrete ordinals: 6 = 0001-01-06 (Saturday),
7 (Sunday), 8 (Monday). -/
theorem adjust_for_weekend_spec_witness :
    adjust_for_weekend 6 = 8 ∧ adjust_for_weekend 7 = 8 ∧
    adjust_for_weekend 8 = 8 ∧ weekday (adjust_for_weekend 6) < 5 :=
  ⟨(adjust_for_weekend_spec 6).1 (by decide),
   (adjust_for_weekend_spec 7).2.1 (by decide),
   (adjust_for_weekend_spec 8).2.2.1 (by decide) (by decide),
   (adjust_for_weekend_spec 6).2.2.2⟩

/-- **C7** (code_bug evidence).  The claim says a command with too few
tokens yields a printed "insufficient arguments" message.  In the code the
starred unpacking raises `ValueError` (not `IndexError`), so the decorator
returns a `ValueError:` string — and `main` discards that return value, so
nothing is printed at all; the `IndexError: Insufficient arguments
provided.` branch is unreachable from the handlers. -/
theorem add_contact_missing_args_silent :
    add_contact ["Alice"] []
        = ⟨[], [],
           some "ValueError: not enough values to unpack (expected at least 2, got 1)"⟩ :=
  rfl

/-- **C10** (confirmed).  When `birthdayInit` rejects the raw string,
`add_birthday` raises with the record unchanged (the `Birthday(...)`
constructor runs before the assignment), so the stored birthday — or its
absence — is preserved. -/
theorem add_birthday_error_preserves (r : Record) (raw e : String)
    (h : birthdayInit raw = .error e) :
    Record.add_birthday r raw = .error (e, r) := by
  simp [Record.add_birthday, h]

/-- Running the canonical `DD.MM.YYYY` string with components `(d, m, y)`
back through the `"%d.%m.%Y"` pattern recovers the components. -/
theorem parse_render_key (d m y : Nat) (hd31 : d ≤ 31) (hm12 : m ≤ 12)
    (hy : y ≤ 9999) :
    parseDMY (pad2 d ++ '.' :: pad2 m ++ '.' :: pad4 y) = some (d, m, y) := by
  have h1 : d / 10 < 10 := by omega
  have h2 : d % 10 < 10 := by omega
  have h3 : m / 10 < 10 := by omega
  have h4 : m % 10 < 10 := by omega
  have h5 : y / 1000 < 10 := by omega
  have h6 : y / 100 % 10 < 10 := by omega
  have h7 : y / 10 % 10 < 10 := by omega
  have h8 : y % 10 < 10 := by omega
  have hD : d / 10 * 10 + d % 10 = d := by omega
  have hM : m / 10 * 10 + m % 10 = m := by omega
  have hY : ((y / 1000 * 10 + y / 100 % 10) * 10 + y / 10 % 10) * 10 + y % 10 = y := by
    omega
  simp [pad2, pad4, parseDMY, readNum, readDigits,
        isDecimal_digitChar _ h1, isDecimal_digitChar _ h2, isDecimal_digitChar _ h3,
        isDecimal_digitChar _ h4, isDecimal_digitChar _ h5, isDecimal_digitChar _ h6,
        isDecimal_digitChar _ h7, isDecimal_digitChar _ h8,
        toDigit_digitChar _ h1, toDigit_digitChar _ h2, toDigit_digitChar _ h3,
        toDigit_digitChar _ h4, toDigit_digitChar _ h5, toDigit_digitChar _ h6,
        toDigit_digitChar _ h7, toDigit_digitChar _ h8,
        dot_not_digit, hD, hM, hY]

/-- **C6** (corrected).  Every `DD.MM.YYYY` string with valid calendar
values (each such string is `specDDMMYYYY d m y` for its component values)
is accepted by `Birthday` construction; the constructed value renders back
to the identical string whenever the year has four significant digits
(`1000 ≤ y`).  For smaller years glibc's `%Y` drops the leading zeros, so
the render differs from the input — see the counterexample. -/
theorem birthday_roundtrip (d m y : Nat) (hv : validDate y m d = true) :
    birthdayInit (specDDMMYYYY d m y) = .ok ⟨y, m, d⟩ ∧
    (1000 ≤ y → birthdayStr ⟨y, m, d⟩ = specDDMMYYYY d m y) := by
  have hb : (1 ≤ y ∧ y ≤ 9999 ∧ 1 ≤ m ∧ m ≤ 12 ∧ 1 ≤ d) ∧ d ≤ daysInMonth y m := by
    simpa [validDate, and_assoc] using hv
  have hd31 : d ≤ 31 := le_trans hb.2 (daysInMonth_le y m)
  have key := parse_render_key d m y hd31 (by omega) (by omega)
  constructor
  · simp only [birthdayInit, specDDMMYYYY]
    rw [key]
    simp [hv]
  · intro hy
    simp only [birthdayStr, specDDMMYYYY]
    rw [natToDigits_four y hy (by omega)]

/-- Witness for C6: `"29.02.2024"` (a leap day) parses and round-trips. -/
theorem birthday_roundtrip_witness :
    birthdayInit (specDDMMYYYY 29 2 2024) = .ok ⟨2024, 2, 29⟩ ∧
    birthdayStr ⟨2024, 2, 29⟩ = specDDMMYYYY 29 2 2024 :=
  ⟨(birthday_roundtrip 29 2 2024 (by decide)).1,
   (birthday_roundtrip 29 2 2024 (by decide)).2 (by decide)⟩

/-- Counterexample to C6 as stated: `"01.01.0099"` matches `DD.MM.YYYY`
with valid calendar values and parses, but glibc's `%Y` renders year 99
unpadded, so the construct-then-render trip yields `"01.01.99"`, not the
identical input string. -/
theorem birthday_pad_counterexample :
    birthdayInit "01.01.0099" = .ok ⟨99, 1, 1⟩ ∧
    birthdayStr ⟨99, 1, 1⟩ = "01.01.99" ∧
    ("01.01.99" : String) ≠ "01.01.0099" := by
  refine ⟨rfl, ?_, by decide⟩
  have h99 : natToDigits 99 = [digitChar 9, digitChar 9] := by
    rw [natToDigits_step 99 (by omega)]
    norm_num
    rw [natToDigits_small 9 (by omega)]
    rfl
  rw [show birthdayStr ⟨99, 1, 1⟩
        = String.mk (pad2 1 ++ '.' :: pad2 1 ++ '.' :: natToDigits 99) from rfl, h99]
  decide

/-- **C4** (corrected).  Over strings of modelled characters, `phoneInit`
succeeds exactly on the 10-character strings whose characters are all
digits in Python's `str.isdigit` sense — a strict superset of the decimal
digits — and fails with the `ValidationError` message on every other
string; restricted to ASCII strings, it succeeds exactly on the strings of
exactly ten decimal digits, as the original claim states. -/
theorem phoneInit_isdigit (s : String)
    (hmod : ∀ c ∈ s.data, pyDigitModelled c = true) :
    ((pyLen s = 10 ∧ s.data.all pyIsdigitChar = true) → phoneInit s = .ok s) ∧
    (¬(pyLen s = 10 ∧ s.data.all pyIsdigitChar = true) →
      phoneInit s = .error "Phone number must contain exactly 10 digits.") ∧
    (s.data.all (fun c => c.toNat < 128) = true →
      (phoneInit s = .ok s ↔ (pyLen s = 10 ∧ s.data.all isDecimalDigit = true))) := by
  have hpos : (pyLen s = 10 ∧ s.data.all pyIsdigitChar = true) → phoneInit s = .ok s := by
    rintro ⟨h1, h2⟩
    have hne : s.data.isEmpty = false := by
      cases hd : s.data
      · rw [pyLen, hd] at h1; simp at h1
      · rfl
    simp [phoneInit, strIsdigit, hne, h2, h1]
  have hneg : ¬(pyLen s = 10 ∧ s.data.all pyIsdigitChar = true) →
      phoneInit s = .error "Phone number must contain exactly 10 digits." := by
    intro h
    by_cases h1 : pyLen s = 10
    · by_cases h2 : s.data.all pyIsdigitChar = true
      · exact absurd ⟨h1, h2⟩ h
      · have h2f : s.data.all pyIsdigitChar = false := by
          cases hv : s.data.all pyIsdigitChar
          · rfl
          · exact absurd hv h2
        simp [phoneInit, strIsdigit, h2f]
    · have hbne : (pyLen s != 10) = true := by simp [h1]
      simp [phoneInit, hbne]
  refine ⟨hpos, hneg, fun hascii => ?_⟩
  have hiff : s.data.all pyIsdigitChar = true ↔ s.data.all isDecimalDigit = true := by
    simp only [List.all_eq_true]
    constructor <;> intro h c hc
    · rw [← ascii_pyIsdigit c (by simpa using List.all_eq_true.mp hascii c hc)]
      exact h c hc
    · rw [ascii_pyIsdigit c (by simpa using List.all_eq_true.mp hascii c hc)]
      exact h c hc
  constructor
  · intro hok
    by_cases hcrit : pyLen s = 10 ∧ s.data.all pyIsdigitChar = true
    · exact ⟨hcrit.1, hiff.mp hcrit.2⟩
    · rw [hneg hcrit] at hok
      simp at hok
  · rintro ⟨h1, h2⟩
    exact hpos ⟨h1, hiff.mpr h2⟩

/-- Witness for C4: a ten-digit ASCII string is accepted (also via the
ASCII characterisation), a shorter one rejected. -/
theorem phoneInit_isdigit_witness :
    phoneInit "0123456789" = .ok "0123456789" ∧
    phoneInit "123" = .error "Phone number must contain exactly 10 digits." ∧
    (phoneInit "0123456789" = .ok "0123456789" ↔
      (pyLen "0123456789" = 10 ∧ List.all "0123456789".data isDecimalDigit = true)) :=
  ⟨(phoneInit_isdigit "0123456789" (by decide)).1 (by decide),
   (phoneInit_isdigit "123" (by decide)).2.1 (by decide),
   (phoneInit_isdigit "0123456789" (by decide)).2.2 (by decide)⟩

/-- Counterexample to C4 as stated: ten superscript-two characters form a
string that does not consist of decimal digits, yet `str.isdigit` is true
of each, so the program accepts it instead of failing. -/
theorem phoneInit_superscript_counterexample :
    phoneInit "²²²²²²²²²²" = .ok "²²²²²²²²²²" ∧
    isDecimalDigit '²' = false :=
  ⟨rfl, rfl⟩

/-- **C5** (corrected).  `edit_phone` with an absent `old` fails with
"Phone number not found" leaving the record unchanged, for every `new`
(the check is independent of `new`'s validity).  When the call succeeds,
`new` is present afterwards; `old` is absent afterwards provided
`old ≠ new` and `old` occurred exactly once (with `old = new` the phone is
re-added, and with duplicate occurrences only the first is removed —
see the counterexample). -/
theorem edit_phone_spec (r : Record) (op np : String) (r2 : Record) :
    (Record.find_phone r op = none →
      Record.edit_phone r op np = .error ("Phone number not found", r)) ∧
    (op ≠ np → r.phones.count op = 1 →
      Record.edit_phone r op np = .ok r2 → op ∉ r2.phones ∧ np ∈ r2.phones) := by
  constructor
  · intro h
    simp [Record.edit_phone, h]
  · intro hne hcount hok
    cases hf : Record.find_phone r op with
    | none => simp [Record.edit_phone, hf] at hok
    | some p =>
      cases hpi : phoneInit op with
      | error e => simp [Record.edit_phone, hf, Record.remove_phone, hpi] at hok
      | ok q =>
        rw [phoneInit_ok_eq hpi] at hpi
        cases hpn : phoneInit np with
        | error e =>
          simp [Record.edit_phone, hf, Record.remove_phone, hpi,
                Record.add_phone, hpn] at hok
        | ok w =>
          rw [phoneInit_ok_eq hpn] at hpn
          simp [Record.edit_phone, hf, Record.remove_phone, hpi,
                Record.add_phone, hpn, freshPhoneNotMem] at hok
          subst hok
          constructor
          · intro hin
            rcases List.mem_append.mp hin with hin1 | hin2
            · exact count_one_not_mem_removeFirst op r.phones hcount hin1
            · simp at hin2
              exact hne hin2
          · simp

/-- Witness for C5's success part: editing the single phone to a fresh
number removes the old digit string and adds the new one. -/
theorem edit_phone_spec_witness :
    "0123456789" ∉ (Record.mk "A" ["9876543210"] none).phones ∧
    "9876543210" ∈ (Record.mk "A" ["9876543210"] none).phones :=
  (edit_phone_spec ⟨"A", ["0123456789"], none⟩ "0123456789" "9876543210"
      ⟨"A", ["9876543210"], none⟩).2 (by decide) (by decide) rfl

/-- Counterexample to C5 as stated: with `old = new` the call succeeds and
`old` is still present afterwards, so "on success `old` is absent" fails. -/
theorem edit_phone_same_counterexample :
    Record.edit_phone ⟨"A", ["0123456789"], none⟩ "0123456789" "0123456789"
        = .ok ⟨"A", ["0123456789"], none⟩ ∧
    "0123456789" ∈ (Record.mk "A" ["0123456789"] none).phones :=
  ⟨rfl, by decide⟩

/-- **C8** (corrected).  When `old` (a well-formed phone) is on the record
and `new` fails validation, `edit_phone` raises and the record at the time
of the raise has the **first** occurrence of `old` removed; `old` is gone
entirely exactly in the single-occurrence case.  (With duplicates a copy of
`old` survives — see the counterexample — so "no longer contains old" is
too strong as stated.) -/
theorem edit_phone_failed_add (r : Record) (op np e : String)
    (hop : phoneInit op = .ok op) (hmem : op ∈ r.phones)
    (hnp : phoneInit np = .error e) :
    Record.edit_phone r op np
        = .error (e, { r with phones := Record.removeFirst r.phones op }) ∧
    (r.phones.count op = 1 → op ∉ Record.removeFirst r.phones op) := by
  have hf : ∃ p, Record.find_phone r op = some p := by
    cases hf0 : Record.find_phone r op with
    | some p => exact ⟨p, rfl⟩
    | none =>
      have := List.find?_eq_none.mp hf0 op hmem
      simp at this
  obtain ⟨p, hf⟩ := hf
  constructor
  · simp [Record.edit_phone, hf, Record.remove_phone, hop, Record.add_phone, hnp]
  · intro h1
    exact count_one_not_mem_removeFirst op r.phones h1

/-- Witness for C8: a failed edit of the only phone loses it. -/
theorem edit_phone_failed_add_witness :
    Record.edit_phone ⟨"B", ["0123456789"], none⟩ "0123456789" "12"
        = .error ("Phone number must contain exactly 10 digits.",
                  ⟨"B", [], none⟩) ∧
    "0123456789" ∉ Record.removeFirst ["0123456789"] "0123456789" :=
  ⟨(edit_phone_failed_add ⟨"B", ["0123456789"], none⟩ "0123456789" "12"
      "Phone number must contain exactly 10 digits." rfl (by decide) rfl).1,
   (edit_phone_failed_add ⟨"B", ["0123456789"], none⟩ "0123456789" "12"
      "Phone number must contain exactly 10 digits." rfl (by decide) rfl).2
      (by decide)⟩

/-- Counterexample to C8 as stated: with the same digit string stored twice
(reachable via the duplicate-add bug), the failed edit removes only the
first copy, so the record still contains `old` after the raise. -/
theorem edit_phone_nonatomic_counterexample :
    Record.edit_phone ⟨"B", ["0123456789", "0123456789"], none⟩ "0123456789" "123"
        = .error ("Phone number must contain exactly 10 digits.",
                  ⟨"B", ["0123456789"], none⟩) ∧
    "0123456789" ∈ (Record.mk "B" ["0123456789"] none).phones :=
  ⟨rfl, by decide⟩

/-- If the tail of the record list makes the query raise, so does the whole
list, whatever the head record does. -/
theorem gub_cons_error (today : DateTime) (days : Nat) (r0 : Record)
    (rs : List Record) (e : String)
    (h : get_upcoming_birthdays today days rs = .error e) :
    ∃ e2, get_upcoming_birthdays today days (r0 :: rs) = .error e2 := by
  cases hb0 : r0.birthday with
  | none => exact ⟨e, by simp [get_upcoming_birthdays, hb0, h]⟩
  | some b0 =>
    cases hrep : replaceYear b0 today.year with
    | error e0 => exact ⟨e0, by simp [get_upcoming_birthdays, hb0, hrep]⟩
    | ok bty0 =>
      cases hlt : keyLt (ymdOrd bty0, 0) (dtOrd today, today.secs) with
      | false => exact ⟨e, by simp [get_upcoming_birthdays, hb0, hrep, hlt, h]⟩
      | true =>
        cases hrep2 : replaceYear bty0 (today.year + 1) with
        | error e1 =>
          exact ⟨e1, by simp [get_upcoming_birthdays, hb0, hrep, hlt, hrep2]⟩
        | ok bty1 =>
          exact ⟨e, by simp [get_upcoming_birthdays, hb0, hrep, hlt, hrep2, h]⟩

/-- **C9** (confirmed).  If any record in the book has a Feb 29 birthday
and today's year is not a leap year, `replace(year=today.year)` raises, so
the whole upcoming-birthday query fails (no record gets a result). -/
theorem upcoming_birthdays_feb29_error (today : DateTime) (days : Nat)
    (records : List Record) (r : Record) (b : Ymd)
    (hmem : r ∈ records) (hb : r.birthday = some b)
    (hm : b.month = 2) (hd : b.day = 29) (hleap : isLeap today.year = false) :
    ∃ e, get_upcoming_birthdays today days records = .error e := by
  induction records with
  | nil => cases hmem
  | cons r0 rs ih =>
    rcases List.mem_cons.mp hmem with heq | hmem2
    · subst heq
      have hval : validDate today.year b.month b.day = false := by
        rw [hm, hd]; simp [validDate, daysInMonth, hleap]
      exact ⟨"day is out of range for month",
        by simp [get_upcoming_birthdays, hb, replaceYear, hval]⟩
    · obtain ⟨e, he⟩ := ih hmem2
      exact gub_cons_error today days r0 rs e he

/-- Witness for C9: a single Feb-29 contact makes the query of June 2023
(a non-leap year) raise. -/
theorem upcoming_birthdays_feb29_error_witness :
    ∃ e, get_upcoming_birthdays ⟨2023, 6, 1, 0⟩ 7
        [⟨"Bob", [], some ⟨2000, 2, 29⟩⟩] = .error e :=
  upcoming_birthdays_feb29_error ⟨2023, 6, 1, 0⟩ 7
    [⟨"Bob", [], some ⟨2000, 2, 29⟩⟩] ⟨"Bob", [], some ⟨2000, 2, 29⟩⟩
    ⟨2000, 2, 29⟩ (by decide) rfl rfl rfl (by decide)

/-- Witness for C10: a record with a stored birthday keeps it when fed a
malformed date. -/
theorem add_birthday_error_preserves_witness :
    Record.add_birthday ⟨"A", [], some ⟨1990, 1, 1⟩⟩ "31-12-1999"
        = .error ("Invalid date format. Use DD.MM.YYYY",
                  ⟨"A", [], some ⟨1990, 1, 1⟩⟩) :=
  add_birthday_error_preserves ⟨"A", [], some ⟨1990, 1, 1⟩⟩ "31-12-1999"
    "Invalid date format. Use DD.MM.YYYY" rfl

end HW2
